import Mathlib

/-!
Verification development for the identity and access-control core of the
cartasBackEnd repository (LoopBack 4 / TypeScript).

The controller logic (UserController in src/unnamed/part_000, AreaController in
src/unnamed/part_001), the Usuario model (src/src/models/usuario.model.ts) and
the MySQL datasource configuration (src/src/datasources/mysql-db.datasource.ts)
are embedded shallowly below.  Request bodies and stored records are modelled as
association lists of string keys to JSON-like values, because the controller
manipulates them with lodash field operations (_.pick, _.omit) and direct field
assignment.  Injected collaborators whose implementation is not part of the
embedded sources (PasswordHasher, validateCredentials, UserService,
TokenService, the authorization voters) are either passed as explicit function
parameters, or, where a claim is decided by them, modelled from the design
specification and marked as such in their doc comment.
-/

namespace Cartas

/-- A JSON-like field value as it appears in request bodies and records. -/
inductive Value where
  | str (s : String)
  | num (n : Int)
  deriving DecidableEq, Repr

/-- A JavaScript-style object: an association list from field names to values.
Field lookup returns the first binding, so prepending a binding overwrites. -/
abbrev Obj := List (String × Value)

namespace Obj

/-- Field access (o.k): the first binding of key k, if any. -/
def get (o : Obj) (k : String) : Option Value :=
  (o.find? (fun p => p.1 == k)).map (fun p => p.2)

/-- lodash _.omit: drop every binding of key k. -/
def omitKey (o : Obj) (k : String) : Obj :=
  o.filter (fun p => !(p.1 == k))

/-- lodash _.pick: keep only bindings whose key is in ks. -/
def pick (o : Obj) (ks : List String) : Obj :=
  o.filter (fun p => ks.contains p.1)

/-- JavaScript field assignment (o.k = v): bind k to v, shadowing old bindings. -/
def set (o : Obj) (k : String) (v : Value) : Obj :=
  (k, v) :: o.omitKey k

/-- Read a string field, defaulting to the empty string (a missing field would
be undefined in JavaScript; the controller only reads fields it knows exist). -/
def getStr (o : Obj) (k : String) : String :=
  match o.get k with
  | some (Value.str s) => s
  | _ => ""

/-- Object spread semantics of a partial update: bindings of the patch shadow
bindings of the base (lookup is first-match, so the patch goes in front). -/
def merge (base patchObj : Obj) : Obj :=
  patchObj ++ base

end Obj

/-- Substring test on character lists (String.prototype.includes). -/
def containsSub (hay needle : List Char) : Bool :=
  match hay with
  | [] => needle.isEmpty
  | _ :: t => needle.isPrefixOf hay || containsSub t needle

/-- String.prototype.includes. -/
def strIncludes (hay needle : String) : Bool :=
  containsSub hay.data needle.data

/-- The error object raised by a failed repository operation, with the two
fields the controller catch block inspects: error.code and error.errmsg.
In the MySQL driver the code is the string "ER_DUP_ENTRY" and there is no
errmsg field; in the MongoDB driver a duplicate key error has numeric code
11000 and an errmsg string naming the violated index. -/
structure StoreError where
  code : Value
  errmsg : Option String
  deriving DecidableEq, Repr

/-- The duplicate-key error produced by the configured datasource
(src/src/datasources/mysql-db.datasource.ts uses connector "mysql"), when the
unique index on the usuario column (usuario.model.ts, index unique on the
usuario property) is violated. -/
def mysqlDupEntryError : StoreError :=
  { code := Value.str "ER_DUP_ENTRY", errmsg := none }

/-- Persistent state behind UsuarioRepository: identity records keyed by
generated id, and the hasOne credential records (userId, password hash). -/
structure Store where
  usuarios : List (Int × Obj)
  creds : List (Int × String)
  nextId : Int
  deriving DecidableEq, Repr

/-- usuarioRepository.create: inserting a record whose usuario value collides
with an existing record violates the unique index and fails with the MySQL
duplicate-entry error; otherwise the record is stored under a fresh id. -/
def usuarioCreate (st : Store) (record : Obj) : Except StoreError (Int × Store) :=
  if st.usuarios.any (fun e => e.2.get "usuario" == record.get "usuario") then
    Except.error mysqlDupEntryError
  else
    Except.ok (st.nextId,
      { usuarios := (st.nextId, record) :: st.usuarios
        creds := st.creds
        nextId := st.nextId + 1 })

/-- usuarioRepository.usuarioCredentials(id).create: stores the hashed
password for the given user.  The write may fail for infrastructure reasons;
an injected failWith error models such a failure of this second write. -/
def credentialCreate (st : Store) (userId : Int) (pw : String)
    (failWith : Option StoreError) : Except StoreError Store :=
  match failWith with
  | some e => Except.error e
  | none => Except.ok { st with creds := (userId, pw) :: st.creds }

/-- The error validateCredentials throws on syntactically invalid credentials
(InvalidCredentialsFormatError in the design). -/
inductive CredFormatError where
  | invalidFormat (msg : String)
  deriving DecidableEq, Repr

/-- Externally visible outcome classes of a sign-up request:
a validation error (propagates from validateCredentials, outside the try
block), an HttpErrors.Conflict (409), or a re-thrown raw store error. -/
inductive SignUpError where
  | invalidCredentialsFormat (e : CredFormatError)
  | conflict (msg : String)
  | internal (e : StoreError)
  deriving DecidableEq, Repr

/-- Observable operations performed while handling a request, in order. -/
inductive Effect where
  | validateOp (picked : Obj)
  | hashOp (plaintext : String)
  | identityCreateOp (record : Obj)
  | credentialCreateOp (userId : Int) (hashed : String)
  | lookupOp (usuario : String)
  | verifyOp (plaintext : String) (hash : String)
  | convertOp
  | tokenOp
  deriving DecidableEq, Repr

/-- The catch block of UserController.create / createAdmin
(src/unnamed/part_000 lines 155-162 and 206-214): a caught store error is
translated to HttpErrors.Conflict only when error.code === 11000 and
error.errmsg includes "index: uniqueEmail" (the MongoDB duplicate-key shape);
every other error is re-thrown unchanged.  With a strict-equality check, a
string code like "ER_DUP_ENTRY" never equals the number 11000; when the code
check fails the errmsg access is short-circuited. -/
def handleStoreError (e : StoreError) : SignUpError :=
  if e.code = Value.num 11000 then
    match e.errmsg with
    | some m =>
        if strIncludes m "index: uniqueEmail" then
          SignUpError.conflict "Email value is already taken"
        else SignUpError.internal e
    | none => SignUpError.internal e
  else SignUpError.internal e

/-- UserController.create / createAdmin (src/unnamed/part_000 lines 128-163
and 179-215; the two bodies are identical except for the forced rol value and
some console logging).  Steps, in source order:
1. newUserRequest.rol = forcedRol (before anything else);
2. validateCredentials(_.pick(newUserRequest, [usuario, password])) - outside
   the try block, so its error propagates untranslated;
3. passwordHasher.hashPassword(newUserRequest.password);
4. usuarioRepository.create(_.omit(newUserRequest, password));
5. usuarioRepository.usuarioCredentials(savedUser.id).create with the hash;
errors of steps 4-5 go through the catch block (handleStoreError).
The validator and hasher are injected collaborators and are parameters here;
failWith injects a failure of the second (credential) write.
Returns the outcome, the resulting store state, and the effect trace. -/
def signUpWith (validate : Obj → Except CredFormatError Unit)
    (hasher : String → String) (forcedRol : String)
    (failWith : Option StoreError) (st : Store) (req : Obj) :
    Except SignUpError (Int × Obj) × Store × List Effect :=
  let req1 := req.set "rol" (Value.str forcedRol)
  let picked := req1.pick ["usuario", "password"]
  match validate picked with
  | Except.error e =>
      (Except.error (SignUpError.invalidCredentialsFormat e), st,
        [Effect.validateOp picked])
  | Except.ok _ =>
      let pw := req1.getStr "password"
      let hashed := hasher pw
      let record := req1.omitKey "password"
      match usuarioCreate st record with
      | Except.error e =>
          (Except.error (handleStoreError e), st,
            [Effect.validateOp picked, Effect.hashOp pw,
             Effect.identityCreateOp record])
      | Except.ok (id, st1) =>
          match credentialCreate st1 id hashed failWith with
          | Except.error e =>
              (Except.error (handleStoreError e), st1,
                [Effect.validateOp picked, Effect.hashOp pw,
                 Effect.identityCreateOp record,
                 Effect.credentialCreateOp id hashed])
          | Except.ok st2 =>
              (Except.ok (id, record), st2,
                [Effect.validateOp picked, Effect.hashOp pw,
                 Effect.identityCreateOp record,
                 Effect.credentialCreateOp id hashed])

/-- POST /users/sign-up (UserController.create): forces rol = "user". -/
def create (validate : Obj → Except CredFormatError Unit)
    (hasher : String → String) (failWith : Option StoreError)
    (st : Store) (req : Obj) :
    Except SignUpError (Int × Obj) × Store × List Effect :=
  signUpWith validate hasher "user" failWith st req

/-- POST /users/sign-up/admin (UserController.createAdmin): forces
rol = "admin". -/
def createAdmin (validate : Obj → Except CredFormatError Unit)
    (hasher : String → String) (failWith : Option StoreError)
    (st : Store) (req : Obj) :
    Except SignUpError (Int × Obj) × Store × List Effect :=
  signUpWith validate hasher "admin" failWith st req

/-- Modelled from the spec: the body of validateCredentials (the
CredentialValidator service, src/services, not under src/ here) is absent;
per section 4.2 it fails with InvalidCredentialsFormatError when the login
identifier fails a syntactic pattern (minimum length, allowed character set)
or the password fails a minimum length policy; it is pure and does no I/O. -/
def validateCredentials (picked : Obj) : Except CredFormatError Unit :=
  let loginId := picked.getStr "usuario"
  let pw := picked.getStr "password"
  if loginId.data.length < 4 then
    Except.error (CredFormatError.invalidFormat "login identifier too short")
  else if !(loginId.data.all Char.isAlphanum) then
    Except.error (CredFormatError.invalidFormat "login identifier has invalid characters")
  else if pw.data.length < 8 then
    Except.error (CredFormatError.invalidFormat "password too short")
  else Except.ok ()

/-- The request body of POST /users/login (LoginCredentials). -/
structure LoginCredentials where
  usuario : String
  password : String
  deriving DecidableEq, Repr

/-- The 401-class error surfaced by a failed credential verification. -/
inductive AuthError where
  | unauthorized (msg : String)
  deriving DecidableEq, Repr

/-- The reduced principal carried in tokens: subject identity plus role. -/
structure Principal where
  subjectId : String
  role : String
  deriving DecidableEq, Repr

/-- Identity-store lookup by login identifier (findByLoginId). -/
def findByUsuario (st : Store) (u : String) : Option (Int × Obj) :=
  st.usuarios.find? (fun e => e.2.get "usuario" == some (Value.str u))

/-- The stored password hash of a user, if any. -/
def credHashFor (st : Store) (userId : Int) : Option String :=
  (st.creds.find? (fun e => e.1 == userId)).map (fun e => e.2)

/-- Modelled from the spec: UserService.verifyCredentials (the UserService
implementation, src/services, is not under src/ here).  Per section 4.4 it
looks up the StoredIdentity by login identifier, fails if absent, verifies the
password against the stored hash via PasswordHasher.verify, fails on mismatch,
and both failure paths surface the same externally visible 401-class error so
a caller cannot distinguish them.  The hash verifier is a parameter.  Returns
the outcome together with the effect trace of the operations performed. -/
def verifyCredentials (verifyHash : String → String → Bool) (st : Store)
    (cred : LoginCredentials) : Except AuthError (Int × Obj) × List Effect :=
  match findByUsuario st cred.usuario with
  | none =>
      (Except.error (AuthError.unauthorized "Invalid usuario or password."),
        [Effect.lookupOp cred.usuario])
  | some (id, u) =>
      match credHashFor st id with
      | none =>
          (Except.error (AuthError.unauthorized "Invalid usuario or password."),
            [Effect.lookupOp cred.usuario])
      | some h =>
          if verifyHash cred.password h then
            (Except.ok (id, u),
              [Effect.lookupOp cred.usuario, Effect.verifyOp cred.password h])
          else
            (Except.error (AuthError.unauthorized "Invalid usuario or password."),
              [Effect.lookupOp cred.usuario, Effect.verifyOp cred.password h])

/-- POST /users/login (UserController.login, src/unnamed/part_000 lines
282-297).  Source order: userService.verifyCredentials(loginCredentials),
then userService.convertToUserProfile(user), then
jwtService.generateToken(userProfile), then return the token together with
the verified user record.  There is no call to validateCredentials in this
method.  The injected services (user service verification, profile
conversion, token generation) are parameters; the verification parameter also
yields its effect trace so the end-to-end trace of the request is visible. -/
def login (usvcVerify : LoginCredentials → Except AuthError (Int × Obj) × List Effect)
    (convert : Int × Obj → Principal) (genToken : Principal → String)
    (cred : LoginCredentials) :
    Except AuthError (String × (Int × Obj)) × List Effect :=
  match usvcVerify cred with
  | (Except.error e, tr) => (Except.error e, tr)
  | (Except.ok user, tr) =>
      let userProfile := convert user
      let token := genToken userProfile
      (Except.ok (token, user), tr ++ [Effect.convertOp, Effect.tokenOp])

/-- A voter consulted by the authorization engine. -/
inductive Vote where
  | allow
  | deny
  | abstain
  deriving DecidableEq, Repr

/-- The final authorization decision. -/
inductive Decision where
  | Allow
  | Deny
  deriving DecidableEq, Repr

/-- A role policy as attached by an authorize decorator: an allowed-role list
plus an ordered list of voter functions. -/
structure RolePolicy where
  allowedRoles : List String
  voters : List (Principal → Vote)

/-- First non-abstaining vote in a list of votes, if any. -/
def firstNonAbstain (votes : List Vote) : Option Vote :=
  votes.find? (fun v => !(v == Vote.abstain))

/-- Modelled from the spec: the authorization engine combining the
allowedRoles list and the voters of an authorize decorator (the
basicAuthorization voter in src/middlewares/auth.midd.ts and the framework
decision combination are not under src/ here).  Per section 4.5: if the
principal role is not a member of allowedRoles the decision is an immediate
Deny; otherwise the voters are evaluated in order and the first non-Abstain
vote becomes the final decision; if all voters abstain the role-check Allow
stands. -/
def decideAccess (p : Principal) (pol : RolePolicy) : Decision :=
  if p.role ∈ pol.allowedRoles then
    match firstNonAbstain (pol.voters.map (fun v => v p)) with
    | some Vote.allow => Decision.Allow
    | some Vote.deny => Decision.Deny
    | _ => Decision.Allow
  else Decision.Deny

/-- Route metadata of a controller method: HTTP method, path, whether an
authenticate("jwt") decorator is present, and the allowedRoles list of the
authorize decorator when one is present (every authorize decorator in the
embedded sources uses voters := singleton basicAuthorization, so only the
role list varies). -/
structure Endpoint where
  httpMethod : String
  path : String
  authenticateJwt : Bool
  authorization : Option (List String)
  deriving DecidableEq, Repr

/-- GET /users/count (src/unnamed/part_000 lines 58-70). -/
def countEndpoint : Endpoint :=
  { httpMethod := "get", path := "/users/count",
    authenticateJwt := true, authorization := some ["admin"] }

/-- GET /users (src/unnamed/part_000 lines 72-93). -/
def findEndpoint : Endpoint :=
  { httpMethod := "get", path := "/users",
    authenticateJwt := true, authorization := some ["admin"] }

/-- PATCH /users/{id} (src/unnamed/part_000 lines 95-112): authenticate("jwt")
is present, no authorize decorator. -/
def updateByIdEndpoint : Endpoint :=
  { httpMethod := "patch", path := "/users/{id}",
    authenticateJwt := true, authorization := none }

/-- POST /users/sign-up (src/unnamed/part_000 lines 114-163): no
authenticate decorator and no authorize decorator. -/
def signUpEndpoint : Endpoint :=
  { httpMethod := "post", path := "/users/sign-up",
    authenticateJwt := false, authorization := none }

/-- POST /users/sign-up/admin (src/unnamed/part_000 lines 165-215): no
authenticate decorator and no authorize decorator. -/
def signUpAdminEndpoint : Endpoint :=
  { httpMethod := "post", path := "/users/sign-up/admin",
    authenticateJwt := false, authorization := none }

/-- GET /users/{userId} (src/unnamed/part_000 lines 217-240). -/
def findByIdEndpoint : Endpoint :=
  { httpMethod := "get", path := "/users/{userId}",
    authenticateJwt := true, authorization := some ["admin"] }

/-- The authorization gate applied to a request on an endpoint: with no
authorize decorator the framework enforces no role policy and every
authenticated principal passes; with a decorator the engine decides with the
declared role list and the voter. -/
def endpointAllows (voter : Principal → Vote) (ep : Endpoint) (p : Principal) :
    Decision :=
  match ep.authorization with
  | none => Decision.Allow
  | some roles => decideAccess p { allowedRoles := roles, voters := [voter] }

/-- Lookup of a stored identity record by id (usuarioRepository.findById). -/
def findByIdStore (st : Store) (id : Int) : Option Obj :=
  (st.usuarios.find? (fun e => e.1 == id)).map (fun e => e.2)

/-- usuarioRepository.updateById as invoked by UserController.updateById
(src/unnamed/part_000 lines 100-112): the partial request body is applied to
the record with the given id with no field filtering, so every field present
in the body, the rol field included, overwrites the stored value. -/
def updateByIdStore (st : Store) (id : Int) (patchObj : Obj) : Store :=
  { st with
    usuarios := st.usuarios.map
      (fun e => if e.1 == id then (e.1, Obj.merge e.2 patchObj) else e) }

/-! Concrete sample data used to evaluate the embedded operations. -/

/-- A sample salted-looking hasher standing in for the injected
PasswordHasher.hashPassword. -/
def demoHasher (s : String) : String := "hashed:" ++ s

/-- The matching verifier: recompute and compare. -/
def demoVerifyHash (plaintext storedHash : String) : Bool :=
  demoHasher plaintext == storedHash

/-- A stored identity record for the user bob1 (no password field). -/
def demoBobRec : Obj :=
  [("usuario", Value.str "bob1"), ("rol", Value.str "user"),
   ("nombres", Value.str "Bob"), ("materno", Value.str "M")]

/-- A store holding bob1 with the hash of the password clave12345. -/
def demoStore : Store :=
  { usuarios := [(1, demoBobRec)]
    creds := [(1, "hashed:clave12345")]
    nextId := 2 }

/-- A sample profile conversion standing in for convertToUserProfile. -/
def demoConvert (u : Int × Obj) : Principal :=
  { subjectId := toString u.1, role := Obj.getStr u.2 "rol" }

/-- A sample token generator standing in for jwtService.generateToken. -/
def demoToken (p : Principal) : String :=
  p.subjectId ++ ":" ++ p.role

/-- Correct login credentials for bob1. -/
def demoLoginOk : LoginCredentials :=
  { usuario := "bob1", password := "clave12345" }

/-- Existing user, wrong password. -/
def demoLoginWrongPw : LoginCredentials :=
  { usuario := "bob1", password := "wrongpass99" }

/-- Nonexistent login identifier. -/
def demoLoginNoUser : LoginCredentials :=
  { usuario := "nadie99", password := "clave12345" }

/-- Syntactically invalid credentials: identifier and password too short. -/
def demoBadCred : LoginCredentials :=
  { usuario := "jo", password := "x" }

/-- A sign-up request whose usuario value collides with the stored bob1. -/
def demoDupReq : Obj :=
  [("usuario", Value.str "bob1"), ("password", Value.str "secret1234"),
   ("nombres", Value.str "Roberto"), ("materno", Value.str "M")]

/-- A fresh sign-up request that even tries to smuggle rol = admin in the
body. -/
def demoNewReq : Obj :=
  [("usuario", Value.str "alice7"), ("password", Value.str "secret1234"),
   ("rol", Value.str "admin"), ("nombres", Value.str "Alice"),
   ("materno", Value.str "M")]

/-- A sign-up request whose password is too short to pass validation. -/
def demoShortPwReq : Obj :=
  [("usuario", Value.str "carl9"), ("password", Value.str "abc")]

/-- An infrastructure error of the credential write (not shaped like a
MongoDB duplicate-key error). -/
def demoCredFailError : StoreError :=
  { code := Value.str "ETIMEDOUT", errmsg := none }

/-! Helper lemmas about the object operations. -/

theorem Obj.get_omitKey_self (o : Obj) (k : String) :
    (o.omitKey k).get k = none := by
  induction o with
  | nil => rfl
  | cons p t ih =>
      by_cases h : p.1 = k <;>
        simp_all [Obj.omitKey, Obj.get, List.filter_cons]

theorem Obj.get_omitKey_ne (o : Obj) (k k' : String) (hne : k ≠ k') :
    (o.omitKey k').get k = o.get k := by
  induction o with
  | nil => rfl
  | cons p t ih =>
      by_cases h : p.1 = k' <;> by_cases hk : p.1 = k <;>
        simp_all [Obj.omitKey, Obj.get, List.filter_cons]

theorem Obj.get_set_self (o : Obj) (k : String) (v : Value) :
    (o.set k v).get k = some v := by
  simp [Obj.set, Obj.get]

theorem Obj.get_set_ne (o : Obj) (k k' : String) (v : Value) (hne : k ≠ k') :
    (o.set k' v).get k = o.get k := by
  have hks : k' ≠ k := hne.symm
  have h := Obj.get_omitKey_ne o k k' hne
  simp_all [Obj.set, Obj.get]

theorem Obj.getStr_of_get (o : Obj) (k : String) (s : String)
    (h : o.get k = some (Value.str s)) : o.getStr k = s := by
  simp [Obj.getStr, h]

theorem Obj.get_merge_of_patch (base patchObj : Obj) (k : String) (v : Value)
    (h : patchObj.get k = some v) : (Obj.merge base patchObj).get k = some v := by
  simp only [Obj.merge, Obj.get, List.find?_append]
  simp only [Obj.get] at h
  rcases hf : patchObj.find? (fun p => p.1 == k) with _ | q
  · simp [hf] at h
  · simp [hf] at h ⊢
    simpa [hf] using h

/-! Helper lemmas about the voter evaluation and the store update. -/

theorem firstNonAbstain_at_first_vote (l : List Vote) (i : Nat) (hi : i < l.length)
    (hpre : ∀ j, ∀ hj : j < i, l[j] = Vote.abstain)
    (hne : l[i] ≠ Vote.abstain) :
    firstNonAbstain l = some l[i] := by
  induction l generalizing i with
  | nil => exact absurd hi (Nat.not_lt_zero i)
  | cons v t ih =>
      cases i with
      | zero =>
          have hb : (v == Vote.abstain) = false :=
            beq_eq_false_iff_ne.mpr (by simpa using hne)
          simp [firstNonAbstain, hb]
      | succ n =>
          have h0 : v = Vote.abstain := by
            simpa using hpre 0 (Nat.succ_pos n)
          have hi' : n < t.length := Nat.lt_of_succ_lt_succ hi
          have hrec := ih n hi'
            (fun j hj => by simpa using hpre (j + 1) (Nat.succ_lt_succ hj))
            (by simpa using hne)
          subst h0
          simpa [firstNonAbstain] using hrec

theorem firstNonAbstain_eq_none (l : List Vote)
    (h : ∀ v ∈ l, v = Vote.abstain) : firstNonAbstain l = none :=
  List.find?_eq_none.mpr (fun x hx => by simp [h x hx])

theorem find?_map_update (l : List (Int × Obj)) (id : Int) (patchObj : Obj)
    (r : Obj)
    (h : (l.find? (fun e => e.1 == id)).map (fun e => e.2) = some r) :
    ((l.map (fun e => if e.1 == id then (e.1, Obj.merge e.2 patchObj) else e)).find?
        (fun e => e.1 == id)).map (fun e => e.2) = some (Obj.merge r patchObj) := by
  induction l with
  | nil => simp at h
  | cons p t ih =>
      by_cases hp : p.1 = id
      · simp [hp] at h ⊢
        rw [h]
      · have hb : (p.1 == id) = false := beq_eq_false_iff_ne.mpr hp
        rw [List.find?_cons_of_neg _ (by simp [hb])] at h
        rw [List.map_cons]
        have hhead :
            (if p.1 == id then (p.1, Obj.merge p.2 patchObj) else p) = p := by
          simp [hb]
        rw [hhead, List.find?_cons_of_neg _ (by simp [hb])]
        exact ih h

theorem findByIdStore_updateByIdStore (st : Store) (id : Int) (patchObj : Obj)
    (r : Obj) (h : findByIdStore st id = some r) :
    findByIdStore (updateByIdStore st id patchObj) id
      = some (Obj.merge r patchObj) := by
  simp only [findByIdStore, updateByIdStore]
  exact find?_map_update st.usuarios id patchObj r
    (by simpa [findByIdStore] using h)

/-! Claim theorems. -/

/-- Claim C5: for every authorization decision, if the principal role is not
a member of the allowed roles the result is an immediate Deny; otherwise the
voters are evaluated in order and the first non-Abstain vote becomes the
final decision, overriding the role check; if all voters abstain the
role-check Allow stands; in particular an admin principal against the policy
with allowed role admin and a voter that always denies yields Deny. -/
theorem C5_decideAccess_algorithm (p : Principal) (pol : RolePolicy) :
    (p.role ∉ pol.allowedRoles → decideAccess p pol = Decision.Deny)
    ∧ (p.role ∈ pol.allowedRoles →
        ∀ i, ∀ hi : i < pol.voters.length,
          (∀ j, ∀ hj : j < i, pol.voters[j] p = Vote.abstain) →
          ((pol.voters[i] p = Vote.allow →
              decideAccess p pol = Decision.Allow)
            ∧ (pol.voters[i] p = Vote.deny →
              decideAccess p pol = Decision.Deny)))
    ∧ (p.role ∈ pol.allowedRoles →
        (∀ v ∈ pol.voters, v p = Vote.abstain) →
        decideAccess p pol = Decision.Allow)
    ∧ decideAccess { subjectId := "s", role := "admin" }
        { allowedRoles := ["admin"], voters := [fun _ => Vote.deny] }
        = Decision.Deny := by
  refine ⟨?_, ?_, ?_, ?_⟩
  · intro h
    simp [decideAccess, h]
  · intro hmem i hi hpre
    have hlen : i < (pol.voters.map (fun v => v p)).length := by simpa using hi
    constructor
    · intro hv
      have hfna := firstNonAbstain_at_first_vote (pol.voters.map (fun v => v p))
        i hlen (fun j hj => by simpa [List.getElem_map] using hpre j hj)
        (by simp [List.getElem_map, hv])
      simp only [List.getElem_map, hv] at hfna
      simp [decideAccess, hmem, hfna]
    · intro hv
      have hfna := firstNonAbstain_at_first_vote (pol.voters.map (fun v => v p))
        i hlen (fun j hj => by simpa [List.getElem_map] using hpre j hj)
        (by simp [List.getElem_map, hv])
      simp only [List.getElem_map, hv] at hfna
      simp [decideAccess, hmem, hfna]
  · intro hmem hall
    have hfna := firstNonAbstain_eq_none (pol.voters.map (fun v => v p))
      (by
        intro v hv
        rcases List.mem_map.mp hv with ⟨w, hw, rfl⟩
        exact hall w hw)
    simp [decideAccess, hmem, hfna]
  · rfl

/-- Concrete witness for C5: a user principal against an admin-only policy
with no voters is denied, and an admin principal is denied by an
always-denying voter. -/
theorem C5_decideAccess_algorithm_witness :
    decideAccess { subjectId := "u", role := "user" }
      { allowedRoles := ["admin"], voters := [] } = Decision.Deny
    ∧ decideAccess { subjectId := "s", role := "admin" }
      { allowedRoles := ["admin"], voters := [fun _ => Vote.deny] }
      = Decision.Deny := by
  constructor
  · exact (C5_decideAccess_algorithm { subjectId := "u", role := "user" }
      { allowedRoles := ["admin"], voters := [] }).1 (by simp)
  · exact ((C5_decideAccess_algorithm { subjectId := "s", role := "admin" }
      { allowedRoles := ["admin"], voters := [fun _ => Vote.deny] }).2.1
        (by simp) 0 (by simp)
        (fun j hj => absurd hj (Nat.not_lt_zero j))).2 rfl

/-- Claim C9: PATCH on a user record requires only a valid token
(authenticate jwt) and carries no authorize decorator, so no role policy is
enforced: every authenticated principal, whatever its role and whatever any
voter would say, passes the gate, and the update applies every field of the
request body to the stored record, the rol field included. -/
theorem C9_updateById_no_policy (st : Store) (id : Int) (patchObj r : Obj)
    (voter : Principal → Vote) (p : Principal)
    (h : findByIdStore st id = some r) :
    updateByIdEndpoint.authenticateJwt = true
    ∧ updateByIdEndpoint.authorization = none
    ∧ endpointAllows voter updateByIdEndpoint p = Decision.Allow
    ∧ findByIdStore (updateByIdStore st id patchObj) id
        = some (Obj.merge r patchObj)
    ∧ (∀ k v, Obj.get patchObj k = some v →
        Obj.get (Obj.merge r patchObj) k = some v) :=
  ⟨rfl, rfl, rfl, findByIdStore_updateByIdStore st id patchObj r h,
    fun k v hv => Obj.get_merge_of_patch r patchObj k v hv⟩

/-- Concrete witness for C9: a plain user principal passes the gate of the
update endpoint even against an always-denying voter, and a patch body that
sets rol to admin does change the stored rol of bob1. -/
theorem C9_updateById_no_policy_witness :
    findByIdStore (updateByIdStore demoStore 1 [("rol", Value.str "admin")]) 1
      = some (Obj.merge demoBobRec [("rol", Value.str "admin")])
    ∧ Obj.get (Obj.merge demoBobRec [("rol", Value.str "admin")]) "rol"
      = some (Value.str "admin")
    ∧ endpointAllows (fun _ => Vote.deny) updateByIdEndpoint
        { subjectId := "9", role := "user" } = Decision.Allow := by
  have h := C9_updateById_no_policy demoStore 1 [("rol", Value.str "admin")]
    demoBobRec (fun _ => Vote.deny) { subjectId := "9", role := "user" } rfl
  exact ⟨h.2.2.2.1, h.2.2.2.2 "rol" (Value.str "admin") rfl, h.2.2.1⟩

/-- Claim C6: for every successful login, the response carries both the
serialized token and the user record, and the token is generated from the
profile conversion of exactly the identity whose credentials were
verified. -/
theorem C6_login_success
    (usvcVerify : LoginCredentials → Except AuthError (Int × Obj) × List Effect)
    (convert : Int × Obj → Principal) (genToken : Principal → String)
    (cred : LoginCredentials) (user : Int × Obj) (tr : List Effect)
    (h : usvcVerify cred = (Except.ok user, tr)) :
    (login usvcVerify convert genToken cred).1
      = Except.ok (genToken (convert user), user) := by
  simp [login, h]

/-- Concrete witness for C6: logging in as bob1 with the correct password
returns the token minted from the converted profile of bob1 together with
the bob1 record. -/
theorem C6_login_success_witness :
    (login (verifyCredentials demoVerifyHash demoStore) demoConvert demoToken
        demoLoginOk).1
      = Except.ok (demoToken (demoConvert (1, demoBobRec)), (1, demoBobRec)) :=
  C6_login_success (verifyCredentials demoVerifyHash demoStore) demoConvert
    demoToken demoLoginOk (1, demoBobRec)
    [Effect.lookupOp "bob1", Effect.verifyOp "clave12345" "hashed:clave12345"]
    rfl

/-- Claim C3: a login with a nonexistent login identifier and a login with
an existing identifier but wrong password surface the same externally
visible error value, so a caller cannot distinguish the two failure
paths. -/
theorem C3_login_enumeration_resistance
    (verifyHash : String → String → Bool) (st1 st2 : Store)
    (conv1 conv2 : Int × Obj → Principal) (gen1 gen2 : Principal → String)
    (cred1 cred2 : LoginCredentials) (id : Int) (u : Obj) (hsh : String)
    (h1 : findByUsuario st1 cred1.usuario = none)
    (h2 : findByUsuario st2 cred2.usuario = some (id, u))
    (h3 : credHashFor st2 id = some hsh)
    (h4 : verifyHash cred2.password hsh = false) :
    (login (verifyCredentials verifyHash st1) conv1 gen1 cred1).1
      = (login (verifyCredentials verifyHash st2) conv2 gen2 cred2).1
    ∧ (login (verifyCredentials verifyHash st1) conv1 gen1 cred1).1
      = Except.error (AuthError.unauthorized "Invalid usuario or password.") := by
  simp [login, verifyCredentials, h1, h2, h3, h4]

/-- Concrete witness for C3: the unknown user nadie99 and bob1 with a wrong
password receive the same unauthorized error. -/
theorem C3_login_enumeration_resistance_witness :
    (login (verifyCredentials demoVerifyHash demoStore) demoConvert demoToken
        demoLoginNoUser).1
      = (login (verifyCredentials demoVerifyHash demoStore) demoConvert
          demoToken demoLoginWrongPw).1
    ∧ (login (verifyCredentials demoVerifyHash demoStore) demoConvert demoToken
        demoLoginNoUser).1
      = Except.error (AuthError.unauthorized "Invalid usuario or password.") :=
  C3_login_enumeration_resistance demoVerifyHash demoStore demoStore
    demoConvert demoConvert demoToken demoToken demoLoginNoUser
    demoLoginWrongPw 1 demoBobRec "hashed:clave12345" rfl rfl rfl rfl

/-- Claim C2 (amended): the login operation performs no syntactic credential
validation at all: its trace holds no validation step and begins directly
with the identity-store lookup, for every credential, including ones that
fail validation; validateCredentials runs only in the sign-up operations,
where it is the first step. -/
theorem C2_login_no_validation (verifyHash : String → String → Bool)
    (st : Store) (convert : Int × Obj → Principal)
    (genToken : Principal → String) (cred : LoginCredentials) :
    (∀ picked, Effect.validateOp picked
        ∉ (login (verifyCredentials verifyHash st) convert genToken cred).2)
    ∧ (login (verifyCredentials verifyHash st) convert genToken cred).2.head?
        = some (Effect.lookupOp cred.usuario)
    ∧ (∀ validate hasher failWith req,
        ((create validate hasher failWith st req).2.2).head?
          = some (Effect.validateOp
              ((Obj.set req "rol" (Value.str "user")).pick
                ["usuario", "password"]))) := by
  refine ⟨?_, ?_, ?_⟩
  · intro picked
    rcases hf : findByUsuario st cred.usuario with _ | ⟨id, u⟩
    · simp [login, verifyCredentials, hf]
    · rcases hch : credHashFor st id with _ | hsh
      · simp [login, verifyCredentials, hf, hch]
      · by_cases hv : verifyHash cred.password hsh = true
        · simp [login, verifyCredentials, hf, hch, hv]
        · simp [login, verifyCredentials, hf, hch, hv]
  · rcases hf : findByUsuario st cred.usuario with _ | ⟨id, u⟩
    · simp [login, verifyCredentials, hf]
    · rcases hch : credHashFor st id with _ | hsh
      · simp [login, verifyCredentials, hf, hch]
      · by_cases hv : verifyHash cred.password hsh = true
        · simp [login, verifyCredentials, hf, hch, hv]
        · simp [login, verifyCredentials, hf, hch, hv]
  · intro validate hasher failWith req
    rcases hval : validate ((Obj.set req "rol" (Value.str "user")).pick
        ["usuario", "password"]) with e | u
    · simp [create, signUpWith, hval]
    · rcases huc : usuarioCreate st
          ((Obj.set req "rol" (Value.str "user")).omitKey "password")
        with e2 | p2
      · simp [create, signUpWith, hval, huc]
      · obtain ⟨id2, st3⟩ := p2
        rcases hcc : credentialCreate st3 id2
            (hasher ((Obj.set req "rol" (Value.str "user")).getStr "password"))
            failWith with e3 | st4
        · simp [create, signUpWith, hval, huc, hcc]
        · simp [create, signUpWith, hval, huc, hcc]

/-- Witness for C2 (amended) at concrete inputs: syntactically invalid
credentials still go straight to the lookup on login, and sign-up validates
first. -/
theorem C2_login_no_validation_witness :
    (∀ picked, Effect.validateOp picked
        ∉ (login (verifyCredentials demoVerifyHash demoStore) demoConvert
            demoToken demoBadCred).2)
    ∧ (login (verifyCredentials demoVerifyHash demoStore) demoConvert
        demoToken demoBadCred).2.head? = some (Effect.lookupOp "jo")
    ∧ ((create validateCredentials demoHasher none demoStore
        demoNewReq).2.2).head?
        = some (Effect.validateOp
            ((Obj.set demoNewReq "rol" (Value.str "user")).pick
              ["usuario", "password"])) := by
  have h := C2_login_no_validation demoVerifyHash demoStore demoConvert
    demoToken demoBadCred
  exact ⟨h.1, h.2.1, h.2.2 validateCredentials demoHasher none demoNewReq⟩

/-- Counterexample for C2: the credentials with identifier jo and password x
fail syntactic validation, yet the login operation performs the
identity-store lookup for them: its effect trace is exactly the lookup, with
no validation step before it.  This refutes the claim that validation runs
before any lookup and that a lookup never occurs for credentials that fail
validation. -/
theorem C2_counterexample :
    validateCredentials
      [("usuario", Value.str "jo"), ("password", Value.str "x")]
      = Except.error
          (CredFormatError.invalidFormat "login identifier too short")
    ∧ (login (verifyCredentials demoVerifyHash demoStore) demoConvert
        demoToken demoBadCred).2 = [Effect.lookupOp "jo"] :=
  ⟨rfl, rfl⟩

/-- Claim C7: a sign-up request whose credentials fail syntactic validation
fails with the validation error before any password hashing occurs and
before any write reaches the identity store: the store state is unchanged
and the effect trace holds no hash operation and no store write. -/
theorem C7_sign_up_validation_error_first
    (validate : Obj → Except CredFormatError Unit) (hasher : String → String)
    (failWith : Option StoreError) (st : Store) (req : Obj)
    (e : CredFormatError)
    (h : validate ((Obj.set req "rol" (Value.str "user")).pick
        ["usuario", "password"]) = Except.error e) :
    (create validate hasher failWith st req).1
      = Except.error (SignUpError.invalidCredentialsFormat e)
    ∧ (create validate hasher failWith st req).2.1 = st
    ∧ (∀ pw, Effect.hashOp pw ∉ (create validate hasher failWith st req).2.2)
    ∧ (∀ r, Effect.identityCreateOp r
        ∉ (create validate hasher failWith st req).2.2)
    ∧ (∀ i hsh, Effect.credentialCreateOp i hsh
        ∉ (create validate hasher failWith st req).2.2) := by
  simp [create, signUpWith, h]

/-- Concrete witness for C7: a sign-up with the too-short password abc fails
with the validation error and leaves the store untouched. -/
theorem C7_sign_up_validation_error_first_witness :
    (create validateCredentials demoHasher none demoStore demoShortPwReq).1
      = Except.error (SignUpError.invalidCredentialsFormat
          (CredFormatError.invalidFormat "password too short"))
    ∧ (create validateCredentials demoHasher none demoStore
        demoShortPwReq).2.1 = demoStore := by
  have h := C7_sign_up_validation_error_first validateCredentials demoHasher
    none demoStore demoShortPwReq
    (CredFormatError.invalidFormat "password too short") rfl
  exact ⟨h.1, h.2.1⟩

/-- Claim C4: on a successful sign-up the plaintext password is never
persisted: the stored identity record carries no password field at all, the
credential record holds exactly the output of the password hasher on the
submitted plaintext, and every credential write in the trace writes that
hash. -/
theorem C4_password_never_persisted
    (validate : Obj → Except CredFormatError Unit) (hasher : String → String)
    (forcedRol : String) (st : Store) (req : Obj) (pw : String)
    (hpw : Obj.get req "password" = some (Value.str pw))
    (hv : validate ((Obj.set req "rol" (Value.str forcedRol)).pick
        ["usuario", "password"]) = Except.ok ())
    (hnd : st.usuarios.any (fun en => en.2.get "usuario"
        == ((Obj.set req "rol" (Value.str forcedRol)).omitKey "password").get
          "usuario") = false) :
    ∃ r, (signUpWith validate hasher forcedRol none st req).1
        = Except.ok (st.nextId, r)
      ∧ Obj.get r "password" = none
      ∧ (signUpWith validate hasher forcedRol none st req).2.1.usuarios
          = (st.nextId, r) :: st.usuarios
      ∧ (signUpWith validate hasher forcedRol none st req).2.1.creds
          = (st.nextId, hasher pw) :: st.creds
      ∧ (∀ i hsh, Effect.credentialCreateOp i hsh
            ∈ (signUpWith validate hasher forcedRol none st req).2.2 →
          hsh = hasher pw) := by
  have hpw1 : (Obj.set req "rol" (Value.str forcedRol)).getStr "password"
      = pw := by
    rw [Obj.getStr,
      Obj.get_set_ne req "password" "rol" (Value.str forcedRol) (by decide),
      hpw]
  refine ⟨(Obj.set req "rol" (Value.str forcedRol)).omitKey "password",
    ?_, ?_, ?_, ?_, ?_⟩ <;>
    simp [signUpWith, hv, usuarioCreate, hnd, credentialCreate, hpw1,
      Obj.get_omitKey_self]

/-- Concrete witness for C4: signing up alice7 stores a record without a
password field and a credential record holding the hash of the submitted
password. -/
theorem C4_password_never_persisted_witness :
    ∃ r, (signUpWith validateCredentials demoHasher "user" none demoStore
        demoNewReq).1 = Except.ok (2, r)
      ∧ Obj.get r "password" = none
      ∧ (signUpWith validateCredentials demoHasher "user" none demoStore
          demoNewReq).2.1.usuarios = (2, r) :: demoStore.usuarios
      ∧ (signUpWith validateCredentials demoHasher "user" none demoStore
          demoNewReq).2.1.creds
          = (2, demoHasher "secret1234") :: demoStore.creds
      ∧ (∀ i hsh, Effect.credentialCreateOp i hsh
            ∈ (signUpWith validateCredentials demoHasher "user" none demoStore
              demoNewReq).2.2 →
          hsh = demoHasher "secret1234") :=
  C4_password_never_persisted validateCredentials demoHasher "user" demoStore
    demoNewReq "secret1234" rfl rfl rfl

/-- On every path of the sign-up body, the record sent to the identity store
is the request with rol forced to the given value and the password field
removed, so its rol field is exactly the forced value. -/
theorem signUpWith_identity_rol
    (validate : Obj → Except CredFormatError Unit) (hasher : String → String)
    (forcedRol : String) (failWith : Option StoreError) (st : Store)
    (req : Obj) :
    (∀ r, Effect.identityCreateOp r
        ∈ (signUpWith validate hasher forcedRol failWith st req).2.2 →
      Obj.get r "rol" = some (Value.str forcedRol))
    ∧ (∀ id r,
        (signUpWith validate hasher forcedRol failWith st req).1
          = Except.ok (id, r) →
      Obj.get r "rol" = some (Value.str forcedRol)) := by
  have hrol : Obj.get
      ((Obj.set req "rol" (Value.str forcedRol)).omitKey "password") "rol"
      = some (Value.str forcedRol) := by
    rw [Obj.get_omitKey_ne _ "rol" "password" (by decide), Obj.get_set_self]
  rcases hval : validate ((Obj.set req "rol" (Value.str forcedRol)).pick
      ["usuario", "password"]) with e | u
  · constructor
    · intro r hr
      simp [signUpWith, hval] at hr
    · intro id r hr
      simp [signUpWith, hval] at hr
  · rcases huc : usuarioCreate st
        ((Obj.set req "rol" (Value.str forcedRol)).omitKey "password")
      with e2 | p2
    · constructor
      · intro r hr
        simp [signUpWith, hval, huc] at hr
        rw [hr]
        exact hrol
      · intro id r hr
        simp [signUpWith, hval, huc] at hr
    · obtain ⟨id2, st3⟩ := p2
      rcases hcc : credentialCreate st3 id2
          (hasher ((Obj.set req "rol" (Value.str forcedRol)).getStr
            "password")) failWith with e3 | st4
      · constructor
        · intro r hr
          simp [signUpWith, hval, huc, hcc] at hr
          rw [hr]
          exact hrol
        · intro id r hr
          simp [signUpWith, hval, huc, hcc] at hr
      · constructor
        · intro r hr
          simp [signUpWith, hval, huc, hcc] at hr
          rw [hr]
          exact hrol
        · intro id r hr
          simp [signUpWith, hval, huc, hcc] at hr
          rw [← hr.2]
          exact hrol

/-- Claim C8: the public sign-up forces the persisted rol to user and the
admin sign-up forces it to admin, whatever rol the request body carried; and
the admin sign-up endpoint carries neither an authenticate decorator nor an
authorize decorator, so an unauthenticated caller can create an admin
identity. -/
theorem C8_sign_up_role_forcing
    (validate : Obj → Except CredFormatError Unit) (hasher : String → String)
    (failWith : Option StoreError) (st : Store) (req : Obj) :
    (∀ r, Effect.identityCreateOp r
        ∈ (create validate hasher failWith st req).2.2 →
      Obj.get r "rol" = some (Value.str "user"))
    ∧ (∀ id r, (create validate hasher failWith st req).1
          = Except.ok (id, r) →
      Obj.get r "rol" = some (Value.str "user"))
    ∧ (∀ r, Effect.identityCreateOp r
        ∈ (createAdmin validate hasher failWith st req).2.2 →
      Obj.get r "rol" = some (Value.str "admin"))
    ∧ (∀ id r, (createAdmin validate hasher failWith st req).1
          = Except.ok (id, r) →
      Obj.get r "rol" = some (Value.str "admin"))
    ∧ signUpAdminEndpoint.authenticateJwt = false
    ∧ signUpAdminEndpoint.authorization = none := by
  have h1 := signUpWith_identity_rol validate hasher "user" failWith st req
  have h2 := signUpWith_identity_rol validate hasher "admin" failWith st req
  exact ⟨h1.1, h1.2, h2.1, h2.2, rfl, rfl⟩

/-- Concrete witness for C8: the alice7 request smuggles rol admin in its
body, yet the public sign-up stores rol user; the admin sign-up stores rol
admin. -/
theorem C8_sign_up_role_forcing_witness :
    Obj.get [("rol", Value.str "user"), ("usuario", Value.str "alice7"),
        ("nombres", Value.str "Alice"), ("materno", Value.str "M")] "rol"
      = some (Value.str "user")
    ∧ Obj.get [("rol", Value.str "admin"), ("usuario", Value.str "alice7"),
        ("nombres", Value.str "Alice"), ("materno", Value.str "M")] "rol"
      = some (Value.str "admin") := by
  have h := C8_sign_up_role_forcing validateCredentials demoHasher none
    demoStore demoNewReq
  exact ⟨h.2.1 2 _ rfl, h.2.2.2.1 2 _ rfl⟩

/-- Claim C10: sign-up is not atomic: the identity record and the credential
record are written separately, identity first; when the credential write
fails, the error propagates to the caller (re-thrown raw by the catch block)
while the identity record persists with no credential stored. -/
theorem C10_sign_up_not_atomic
    (validate : Obj → Except CredFormatError Unit) (hasher : String → String)
    (st : Store) (req : Obj) (e : StoreError)
    (hv : validate ((Obj.set req "rol" (Value.str "user")).pick
        ["usuario", "password"]) = Except.ok ())
    (hnd : st.usuarios.any (fun en => en.2.get "usuario"
        == ((Obj.set req "rol" (Value.str "user")).omitKey "password").get
          "usuario") = false)
    (hcode : e.code ≠ Value.num 11000) :
    (create validate hasher (some e) st req).1
      = Except.error (SignUpError.internal e)
    ∧ (create validate hasher (some e) st req).2.1.usuarios
        = (st.nextId, (Obj.set req "rol" (Value.str "user")).omitKey
            "password") :: st.usuarios
    ∧ (create validate hasher (some e) st req).2.1.creds = st.creds := by
  simp [create, signUpWith, hv, usuarioCreate, hnd, credentialCreate,
    handleStoreError, hcode]

/-- Concrete witness for C10: signing up alice7 with a credential write that
times out surfaces the raw error while the alice7 identity record stays
persisted and no credential is stored. -/
theorem C10_sign_up_not_atomic_witness :
    (create validateCredentials demoHasher (some demoCredFailError) demoStore
        demoNewReq).1
      = Except.error (SignUpError.internal demoCredFailError)
    ∧ (create validateCredentials demoHasher (some demoCredFailError)
        demoStore demoNewReq).2.1.usuarios
        = (2, (Obj.set demoNewReq "rol" (Value.str "user")).omitKey
            "password") :: demoStore.usuarios
    ∧ (create validateCredentials demoHasher (some demoCredFailError)
        demoStore demoNewReq).2.1.creds = demoStore.creds := by
  have h := C10_sign_up_not_atomic validateCredentials demoHasher demoStore
    demoNewReq demoCredFailError rfl rfl (by decide)
  exact ⟨h.1, h.2.1, h.2.2⟩

/-- Claim C1, evaluated at the failing input: signing up with the already
taken identifier bob1 against the MySQL-configured store raises the
duplicate-entry error with string code ER_DUP_ENTRY; the catch block, which
only recognises the MongoDB shape (numeric code 11000 with an errmsg naming
index uniqueEmail), re-throws it raw, so the caller receives the internal
store error and not the distinct 409 Conflict the design requires. -/
theorem C1_duplicate_sign_up_raw_error :
    (create validateCredentials demoHasher none demoStore demoDupReq).1
      = Except.error (SignUpError.internal mysqlDupEntryError)
    ∧ handleStoreError mysqlDupEntryError
      = SignUpError.internal mysqlDupEntryError :=
  ⟨rfl, rfl⟩

end Cartas
